import Mathlib

/-!
Verification of the `ai-pricing-model-types` crate (src/lib.rs).

Shallow embedding conventions:
* JSON values are modelled by the inductive `Json`; JSON numbers are modelled
  as `Rat` (no arithmetic is ever performed on them by the crate, they are only
  stored and re-emitted, so the exact numeric carrier is irrelevant to every
  property proved here).
* serde's derived `Deserialize`/`Serialize` for each struct is translated
  field by field: required fields fail when missing or ill-typed
  (`reqField`), `#[serde(default)]` fields fall back to the Rust default when
  missing (`defField`), and `Option` fields decode `null`/missing to `none`
  (`optField`); unknown object fields are ignored, which matches serde's
  default.  Field names use the `rename_all = "camelCase"` (and explicit
  `rename`) spellings from the source.
* The `#[serde(untagged)]` enum `Pricing` tries its variants in declaration
  order: the `TextPricing` object shape first, then `Vec<ImagePricing>`.
* The network is modelled by a function `net : String → HttpResponse` giving,
  for each URL, either a transport failure or a status code plus body.
  `reqwest`'s `error_for_status` fails exactly on client/server error
  statuses, i.e. 400..=599.  hyper forces a zero-length body on 204 and 304
  responses (RFC 7230 §3.3.3), and zero bytes are not a JSON document, so on
  those statuses `.json()` fails regardless of what the server sent; the
  model applies that constraint where the body is consumed.
* The `once_cell::sync::OnceCell` global `AI_PRICING` is modelled by explicit
  state passing.  `get_ai_pricing` receives `cell`, the cell's content
  observed at the `AI_PRICING.get()` check, and `interf`, its content at the
  next interaction point after the fetch `.await` returns (the `set` attempt,
  or the final state for early returns).  This second observation models
  concurrent fills happening during the await: the cell is write-once, so
  every admissible execution satisfies `cell = some v → interf = some v`,
  and theorems instantiate the two observations consistently.
  `OnceCell::set` succeeds iff the cell is empty at that moment; on failure
  the Rust code maps the error to the string "Cell was already initialized"
  and propagates it with `?`, modelled by `GetError.cellAlreadySet`.  The
  final `AI_PRICING.get().unwrap()` is modelled by matching on the cell state
  after the successful set (`some data`, since the cell is write-once); its
  hypothetical panic branch is `GetError.unwrapPanic`.
-/

namespace AiPricing

/-- JSON values; numbers are carried as `Rat` (see module docstring). -/
inductive Json where
  | null : Json
  | bool : Bool → Json
  | num : Rat → Json
  | str : String → Json
  | arr : List Json → Json
  | obj : List (String × Json) → Json

/-- Look a field up in a JSON object's field list. -/
def getField : List (String × Json) → String → Option Json
  | [], _ => none
  | (k, v) :: rest, name => if k = name then some v else getField rest name

/-- serde: a `String` field accepts exactly a JSON string. -/
def Json.asStr : Json → Option String
  | .str s => some s
  | _ => none

/-- serde: an `f64` field accepts exactly a JSON number. -/
def Json.asNum : Json → Option Rat
  | .num q => some q
  | _ => none

/-- serde: a `bool` field accepts exactly a JSON boolean. -/
def Json.asBool : Json → Option Bool
  | .bool b => some b
  | _ => none

def Json.asArr : Json → Option (List Json)
  | .arr xs => some xs
  | _ => none

/-- A required struct field: missing or ill-typed is a decode error. -/
def reqField (dec : Json → Option α) (o : List (String × Json)) (name : String) :
    Option α :=
  match getField o name with
  | none => none
  | some j => dec j

/-- An `Option<T>` struct field (all carry `#[serde(default)]` in the source):
missing or `null` decodes to `none`; any other value must decode as `T`. -/
def optField (dec : Json → Option α) (o : List (String × Json)) (name : String) :
    Option (Option α) :=
  match getField o name with
  | none => some none
  | some Json.null => some none
  | some j => (dec j).map some

/-- A non-`Option` field with `#[serde(default)]`: missing decodes to the
Rust `Default` value; a present value must still be well-typed. -/
def defField (dec : Json → Option α) (dflt : α) (o : List (String × Json))
    (name : String) : Option α :=
  match getField o name with
  | none => some dflt
  | some j => dec j

/-- serde sequence deserialization: decode the elements in order, failing on
the first element that fails. -/
def decodeElems (dec : Json → Option α) : List Json → Option (List α)
  | [] => some []
  | j :: rest => do
      let x ← dec j
      let xs ← decodeElems dec rest
      pure (x :: xs)

/-- A `Vec<String>` field value. -/
def decStrList (j : Json) : Option (List String) := do
  let xs ← j.asArr
  decodeElems Json.asStr xs

/-- `TextPricing` struct (src/lib.rs lines 138-150). -/
structure TextPricing where
  cached_input_per1_k : Option Rat
  cached_input_per1_m : Option Rat
  input_per1_k : Rat
  input_per1_m : Rat
  output_per1_k : Rat
  output_per1_m : Rat
  deriving DecidableEq, Repr

/-- `ImagePricing` struct (src/lib.rs lines 152-158). -/
structure ImagePricing where
  cost_per_image : Rat
  description : String
  size : String
  deriving DecidableEq, Repr

/-- `Pricing` untagged enum (src/lib.rs lines 131-136). -/
inductive Pricing where
  | TextPricing : TextPricing → Pricing
  | ImagePricingVec : List ImagePricing → Pricing
  deriving DecidableEq, Repr

/-- Derived `Deserialize` for `TextPricing`: `camelCase` field names; the two
cached rates are `Option` fields, the four plain rates are required. -/
def TextPricing.decode : Json → Option TextPricing
  | .obj o => do
      let c1 ← optField Json.asNum o "cachedInputPer1K"
      let c2 ← optField Json.asNum o "cachedInputPer1M"
      let i1 ← reqField Json.asNum o "inputPer1K"
      let i2 ← reqField Json.asNum o "inputPer1M"
      let u1 ← reqField Json.asNum o "outputPer1K"
      let u2 ← reqField Json.asNum o "outputPer1M"
      pure { cached_input_per1_k := c1, cached_input_per1_m := c2,
             input_per1_k := i1, input_per1_m := i2,
             output_per1_k := u1, output_per1_m := u2 }
  | _ => none

/-- Derived `Deserialize` for `ImagePricing`: all three fields required. -/
def ImagePricing.decode : Json → Option ImagePricing
  | .obj o => do
      let c ← reqField Json.asNum o "costPerImage"
      let d ← reqField Json.asStr o "description"
      let s ← reqField Json.asStr o "size"
      pure { cost_per_image := c, description := d, size := s }
  | _ => none

/-- `Vec<ImagePricing>`: a JSON array, every element an `ImagePricing`. -/
def decodeImagePricingList (j : Json) : Option (List ImagePricing) := do
  let xs ← j.asArr
  decodeElems ImagePricing.decode xs

/-- Derived `Deserialize` for the `#[serde(untagged)]` enum `Pricing`: serde
tries the variants in declaration order, `TextPricing` first, then
`Vec<ImagePricing>`; if both fail the whole decode fails. -/
def Pricing.decode (j : Json) : Option Pricing :=
  match TextPricing.decode j with
  | some t => some (Pricing.TextPricing t)
  | none => (decodeImagePricingList j).map Pricing.ImagePricingVec

/-- Serialize an `Option<f64>` field value: `None` serializes to `null`. -/
def encOptNum : Option Rat → Json
  | none => Json.null
  | some q => Json.num q

/-- Derived `Serialize` for `TextPricing` (fields in declaration order,
`camelCase` names, `None` as `null`). -/
def TextPricing.encode (t : TextPricing) : Json :=
  Json.obj
    [ ("cachedInputPer1K", encOptNum t.cached_input_per1_k),
      ("cachedInputPer1M", encOptNum t.cached_input_per1_m),
      ("inputPer1K", Json.num t.input_per1_k),
      ("inputPer1M", Json.num t.input_per1_m),
      ("outputPer1K", Json.num t.output_per1_k),
      ("outputPer1M", Json.num t.output_per1_m) ]

/-- Derived `Serialize` for `ImagePricing`. -/
def ImagePricing.encode (p : ImagePricing) : Json :=
  Json.obj
    [ ("costPerImage", Json.num p.cost_per_image),
      ("description", Json.str p.description),
      ("size", Json.str p.size) ]

/-- Derived `Serialize` for the untagged `Pricing`: serialize the payload. -/
def Pricing.encode : Pricing → Json
  | Pricing.TextPricing t => t.encode
  | Pricing.ImagePricingVec l => Json.arr (l.map ImagePricing.encode)

/-- `ProdPriceIds` struct (src/lib.rs lines 164-173). -/
structure ProdPriceIds where
  cached_input : Option String
  input : Option String
  output : Option String
  deriving DecidableEq, Repr

def ProdPriceIds.decode : Json → Option ProdPriceIds
  | .obj o => do
      let c ← optField Json.asStr o "cachedInput"
      let i ← optField Json.asStr o "input"
      let u ← optField Json.asStr o "output"
      pure { cached_input := c, input := i, output := u }
  | _ => none

/-- `Model` struct (src/lib.rs lines 87-125); `model_type` carries
`#[serde(rename = "type")]`. -/
structure Model where
  added : String
  created : String
  features : List String
  key : String
  model_id : Option String
  inference_profile_arn : Option String
  inference_profile_id : Option String
  pricing : Option Pricing
  streaming : Option Bool
  system_disabled : Option Bool
  model_type : String
  deprecated : Option Bool
  encoder : Option String
  prod_price_ids : Option ProdPriceIds
  deriving DecidableEq, Repr

/-- Derived `Deserialize` for `Model`: `added`, `created` and `type` are
required; `features` and `key` have `#[serde(default)]` (empty list, empty
string); every `Option` field decodes missing/`null` to `none`. -/
def Model.decode : Json → Option Model
  | .obj o => do
      let added ← reqField Json.asStr o "added"
      let created ← reqField Json.asStr o "created"
      let features ← defField decStrList [] o "features"
      let key ← defField Json.asStr "" o "key"
      let model_id ← optField Json.asStr o "modelId"
      let arn ← optField Json.asStr o "inferenceProfileArn"
      let pid ← optField Json.asStr o "inferenceProfileId"
      let pricing ← optField Pricing.decode o "pricing"
      let streaming ← optField Json.asBool o "streaming"
      let sys ← optField Json.asBool o "systemDisabled"
      let mtype ← reqField Json.asStr o "type"
      let depr ← optField Json.asBool o "deprecated"
      let enc ← optField Json.asStr o "encoder"
      let ppi ← optField ProdPriceIds.decode o "prodPriceIds"
      pure { added := added, created := created, features := features,
             key := key, model_id := model_id,
             inference_profile_arn := arn, inference_profile_id := pid,
             pricing := pricing, streaming := streaming,
             system_disabled := sys, model_type := mtype,
             deprecated := depr, encoder := enc, prod_price_ids := ppi }
  | _ => none

/-- `Markup` struct (src/lib.rs lines 38-43). -/
structure Markup where
  image_percentage : Rat
  text_percentage : Rat
  deriving DecidableEq, Repr

def Markup.decode : Json → Option Markup
  | .obj o => do
      let i ← reqField Json.asNum o "imagePercentage"
      let t ← reqField Json.asNum o "textPercentage"
      pure { image_percentage := i, text_percentage := t }
  | _ => none

/-- `Categories` struct (src/lib.rs lines 57-70); field names carry explicit
`#[serde(rename = ...)]` with slashes and hyphens. -/
structure Categories where
  hate : Bool
  hate_threatening : Bool
  self_harm : Bool
  self_harm_instructions : Bool
  self_harm_intent : Bool
  sexual_minors : Bool
  deriving DecidableEq, Repr

def Categories.decode : Json → Option Categories
  | .obj o => do
      let h ← reqField Json.asBool o "hate"
      let ht ← reqField Json.asBool o "hate/threatening"
      let sh ← reqField Json.asBool o "self-harm"
      let shi ← reqField Json.asBool o "self-harm/instructions"
      let sht ← reqField Json.asBool o "self-harm/intent"
      let sm ← reqField Json.asBool o "sexual/minors"
      pure { hate := h, hate_threatening := ht, self_harm := sh,
             self_harm_instructions := shi, self_harm_intent := sht,
             sexual_minors := sm }
  | _ => none

/-- `CategoryScore` struct (src/lib.rs lines 72-81). -/
structure CategoryScore where
  harassment_threatening : Rat
  illicit : Rat
  illicit_violent : Rat
  violence_graphic : Rat
  deriving DecidableEq, Repr

def CategoryScore.decode : Json → Option CategoryScore
  | .obj o => do
      let h ← reqField Json.asNum o "harassment/threatening"
      let i ← reqField Json.asNum o "illicit"
      let iv ← reqField Json.asNum o "illicit/violent"
      let vg ← reqField Json.asNum o "violence/graphic"
      pure { harassment_threatening := h, illicit := i, illicit_violent := iv,
             violence_graphic := vg }
  | _ => none

/-- `ModerationThreshold` struct (src/lib.rs lines 49-55). -/
structure ModerationThreshold where
  categories : Categories
  category_score : CategoryScore
  general : Rat
  deriving DecidableEq, Repr

def ModerationThreshold.decode : Json → Option ModerationThreshold
  | .obj o => do
      let c ← reqField Categories.decode o "categories"
      let cs ← reqField CategoryScore.decode o "categoryScore"
      let g ← reqField Json.asNum o "general"
      pure { categories := c, category_score := cs, general := g }
  | _ => none

/-- `Provider` struct (src/lib.rs lines 21-32). -/
structure Provider where
  description : String
  key : String
  label : String
  markup : Markup
  models : List Model
  moderation_threshold : ModerationThreshold
  provider_host : String
  website : String
  deriving DecidableEq, Repr

def Provider.decode : Json → Option Provider
  | .obj o => do
      let d ← reqField Json.asStr o "description"
      let k ← reqField Json.asStr o "key"
      let l ← reqField Json.asStr o "label"
      let m ← reqField Markup.decode o "markup"
      let ms ← reqField (fun j => do
        let xs ← j.asArr
        decodeElems Model.decode xs) o "models"
      let mt ← reqField ModerationThreshold.decode o "moderationThreshold"
      let ph ← reqField Json.asStr o "providerHost"
      let w ← reqField Json.asStr o "website"
      pure { description := d, key := k, label := l, markup := m,
             models := ms, moderation_threshold := mt, provider_host := ph,
             website := w }
  | _ => none

/-- `AiPricingJson` struct, the top-level document (src/lib.rs lines 10-15). -/
structure AiPricingJson where
  metered_price_id : String
  providers : List Provider
  deriving DecidableEq, Repr

def AiPricingJson.decode : Json → Option AiPricingJson
  | .obj o => do
      let m ← reqField Json.asStr o "meteredPriceId"
      let ps ← reqField (fun j => do
        let xs ← j.asArr
        decodeElems Provider.decode xs) o "providers"
      pure { metered_price_id := m, providers := ps }
  | _ => none

/-- The network, abstracted: for each URL, either the connection fails
(`transportFail`, reqwest's `send().await?` error) or the server answers with
a status code and a JSON body. -/
inductive HttpResponse where
  | transportFail : HttpResponse
  | ok : Nat → Json → HttpResponse

/-- The error kinds `fetch_pricing_json` can produce, as distinguishable
values (in the source they are all boxed into `Box<dyn Error>`). -/
inductive FetchError where
  | transport : FetchError
  | httpStatus : Nat → FetchError
  | decode : FetchError
  deriving DecidableEq, Repr

/-- `fetch_pricing_json` (src/lib.rs lines 186-191): one GET, then
`error_for_status` (reqwest fails exactly on statuses 400..=599), then
deserialize the body as `AiPricingJson`.  No retry anywhere.  For a 204 or
304 response hyper delivers a zero-length body (RFC 7230 §3.3.3) whatever
the server sent, and zero bytes fail JSON parsing, so `.json()` is a decode
error there. -/
def fetch_pricing_json (net : String → HttpResponse) (url : String) :
    Except FetchError AiPricingJson :=
  match net url with
  | HttpResponse.transportFail => Except.error FetchError.transport
  | HttpResponse.ok status body =>
      if 400 ≤ status ∧ status ≤ 599 then
        Except.error (FetchError.httpStatus status)
      else if status = 204 ∨ status = 304 then
        Except.error FetchError.decode
      else
        match AiPricingJson.decode body with
        | some d => Except.ok d
        | none => Except.error FetchError.decode

/-- The errors `get_ai_pricing` can return: a propagated fetch error, the
"Cell was already initialized" string the source produces when
`AI_PRICING.set` fails, or the (hypothetical) panic of the final `unwrap`. -/
inductive GetError where
  | fetch : FetchError → GetError
  | cellAlreadySet : GetError
  | unwrapPanic : GetError
  deriving DecidableEq, Repr

/-- The URL computation at the top of `get_ai_pricing`
(src/lib.rs lines 203-207). -/
def pricing_url (env : String) : String :=
  if env = "prod" then
    "https://images.bookcicle.com/ai/ai-pricing.json"
  else
    "https://images.bookcicle.com/ai/ai-pricing-" ++ env ++ ".json"

/-- `get_ai_pricing` (src/lib.rs lines 198-231).  `cell` is the `AI_PRICING`
content observed at the `AI_PRICING.get()` check (and at entry), `interf` its
content at the next interaction after the fetch await — see the module
docstring; write-once admissibility is `cell = some v → interf = some v`.
Returns the call's result together with the cell content when it returns.

Branches, in source order: bypass (fetch, `Box::leak`, return without
touching the cell); hit (cell already set, return the cached reference);
fill (fetch, `set` — which fails if a concurrent winner filled the cell
during the await, mapped to the "Cell was already initialized" error and
propagated with `?` — then `AI_PRICING.get().unwrap()`). -/
def get_ai_pricing (env : String) (bust_cache : Bool)
    (net : String → HttpResponse)
    (cell : Option AiPricingJson) (interf : Option AiPricingJson) :
    Except GetError AiPricingJson × Option AiPricingJson :=
  if bust_cache then
    match fetch_pricing_json net (pricing_url env) with
    | Except.error e => (Except.error (GetError.fetch e), interf)
    | Except.ok fresh_data => (Except.ok fresh_data, interf)
  else
    match cell with
    | some cached_ref => (Except.ok cached_ref, some cached_ref)
    | none =>
        match fetch_pricing_json net (pricing_url env) with
        | Except.error e => (Except.error (GetError.fetch e), interf)
        | Except.ok data =>
            match interf with
            | some w => (Except.error GetError.cellAlreadySet, some w)
            | none =>
                match (some data : Option AiPricingJson) with
                | some x => (Except.ok x, some data)
                | none => (Except.error GetError.unwrapPanic, some data)

/-- A minimal document body: `{"meteredPriceId": "mp", "providers": []}`. -/
def minimalBody : Json :=
  Json.obj [("meteredPriceId", Json.str "mp"), ("providers", Json.arr [])]

/-- The document `minimalBody` decodes to. -/
def minimalDoc : AiPricingJson := { metered_price_id := "mp", providers := [] }

/-- A document standing for the value committed by a concurrent race winner. -/
def winnerDoc : AiPricingJson :=
  { metered_price_id := "winner", providers := [] }

/-- A text-pricing JSON fragment: the four required rate fields, with each of
the two cached-input rates present exactly when its `Option` argument is
`some`. -/
def textFragment (c1 c2 : Option Rat) (i1 i2 u1 u2 : Rat) : Json :=
  Json.obj
    ((match c1 with
      | none => []
      | some q => [("cachedInputPer1K", Json.num q)]) ++
     (match c2 with
      | none => []
      | some q => [("cachedInputPer1M", Json.num q)]) ++
     [("inputPer1K", Json.num i1), ("inputPer1M", Json.num i2),
      ("outputPer1K", Json.num u1), ("outputPer1M", Json.num u2)])

end AiPricing

namespace AiPricing

/-- Decoding inverts encoding for a single image-pricing entry. -/
theorem imagePricing_decode_encode (p : ImagePricing) :
    ImagePricing.decode p.encode = some p := rfl

/-- Decoding inverts encoding elementwise across an image-pricing list. -/
theorem decodeElems_decode_encode (l : List ImagePricing) :
    decodeElems ImagePricing.decode (l.map ImagePricing.encode) = some l := by
  induction l with
  | nil => rfl
  | cons hd tl ih => simp [decodeElems, imagePricing_decode_encode, ih]

/-- Decoding inverts encoding for a text-pricing value. -/
theorem textPricing_decode_encode (t : TextPricing) :
    TextPricing.decode t.encode = some t := by
  cases t with
  | mk c1 c2 i1 i2 u1 u2 => cases c1 <;> cases c2 <;> rfl

/-- C5: `get_ai_pricing` computes the source URL deterministically from the
environment name: `"prod"` maps to the production URL ending in
`ai-pricing.json`, and every other environment string `e` maps to the
per-environment URL ending in `ai-pricing-e.json`; in particular `"dev"`
maps to the URL ending in `ai-pricing-dev.json`. -/
theorem url_mapping :
    pricing_url "prod" = "https://images.bookcicle.com/ai/ai-pricing.json"
    ∧ pricing_url "dev" = "https://images.bookcicle.com/ai/ai-pricing-dev.json"
    ∧ ∀ e : String, e ≠ "prod" →
        pricing_url e = "https://images.bookcicle.com/ai/ai-pricing-" ++ e ++ ".json" := by
  refine ⟨rfl, rfl, fun e he => ?_⟩
  simp [pricing_url, he]

/-- C5 witness: the non-`"prod"` branch of `url_mapping` at `"staging"`. -/
theorem url_mapping_witness :
    ("staging" : String) ≠ "prod"
    ∧ pricing_url "staging" =
        "https://images.bookcicle.com/ai/ai-pricing-staging.json" :=
  ⟨by decide, url_mapping.2.2 "staging" (by decide)⟩

/-- C3: a non-bypass call against a filled slot returns exactly the slot's
committed document (the source returns the `&'static` reference into the
cell, modelled here as returning the committed value unchanged) and leaves
the slot filled with it; the result does not depend on the network, so no
fetch occurs; and no call of any kind can ever move the slot away from its
committed value, so every later non-bypass call behaves the same way for the
rest of the process's life. -/
theorem filled_slot_hit (env : String) (net net2 : String → HttpResponse)
    (v : AiPricingJson) :
    get_ai_pricing env false net (some v) (some v) = (Except.ok v, some v)
    ∧ get_ai_pricing env false net (some v) (some v) =
        get_ai_pricing env false net2 (some v) (some v)
    ∧ ∀ bust : Bool, (get_ai_pricing env bust net (some v) (some v)).2 = some v := by
  refine ⟨rfl, rfl, fun bust => ?_⟩
  cases bust with
  | false => rfl
  | true =>
      simp only [get_ai_pricing]
      cases fetch_pricing_json net (pricing_url env) <;> simp

/-- C2: a non-bypass call against an empty slot whose fetch fails returns
exactly that fetch error and writes nothing to the slot (the call's final
slot state is whatever concurrent activity left, here `none`), so a
subsequent non-bypass call fetches again and, when its fetch succeeds,
commits and returns the fresh document. -/
theorem failed_fetch_not_poisoning (env : String) (net : String → HttpResponse)
    (e : FetchError)
    (hf : fetch_pricing_json net (pricing_url env) = Except.error e) :
    get_ai_pricing env false net none none = (Except.error (GetError.fetch e), none)
    ∧ ∀ (net2 : String → HttpResponse) (d : AiPricingJson),
        fetch_pricing_json net2 (pricing_url env) = Except.ok d →
        get_ai_pricing env false net2 none none = (Except.ok d, some d) := by
  constructor
  · simp [get_ai_pricing, hf]
  · intro net2 d hd
    simp [get_ai_pricing, hd]

/-- C2 witness: `failed_fetch_not_poisoning` at a transport failure on the
`"dev"` URL. -/
theorem failed_fetch_not_poisoning_witness :
    fetch_pricing_json (fun _ => HttpResponse.transportFail) (pricing_url "dev")
        = Except.error FetchError.transport
    ∧ get_ai_pricing "dev" false (fun _ => HttpResponse.transportFail) none none
        = (Except.error (GetError.fetch FetchError.transport), none) :=
  ⟨rfl, (failed_fetch_not_poisoning "dev" (fun _ => HttpResponse.transportFail)
      FetchError.transport rfl).1⟩

/-- C4: a bypass call never writes the slot (its final slot state is exactly
the concurrent-activity state `interf`; with no concurrency, `interf = cell`,
so the slot is identical before and after), never reads the slot (the result
is the same for any two slot contents), returns the freshly fetched document
on success, and propagates the fetch error unchanged on failure. -/
theorem bypass_frame (env : String) (net : String → HttpResponse)
    (cell cell2 interf : Option AiPricingJson) :
    (get_ai_pricing env true net cell interf).2 = interf
    ∧ (get_ai_pricing env true net cell interf).1 =
        (get_ai_pricing env true net cell2 interf).1
    ∧ (∀ d : AiPricingJson, fetch_pricing_json net (pricing_url env) = Except.ok d →
        (get_ai_pricing env true net cell interf).1 = Except.ok d)
    ∧ (∀ e : FetchError, fetch_pricing_json net (pricing_url env) = Except.error e →
        (get_ai_pricing env true net cell interf).1 =
          Except.error (GetError.fetch e)) := by
  refine ⟨?_, ?_, fun d hd => ?_, fun e he => ?_⟩
  · simp only [get_ai_pricing]
    cases fetch_pricing_json net (pricing_url env) <;> simp
  · rfl
  · simp [get_ai_pricing, hd]
  · simp [get_ai_pricing, he]

/-- C4 witness: `bypass_frame` on a successful fetch of `minimalBody`. -/
theorem bypass_frame_witness :
    fetch_pricing_json (fun _ => HttpResponse.ok 200 minimalBody) (pricing_url "dev")
        = Except.ok minimalDoc
    ∧ (get_ai_pricing "dev" true (fun _ => HttpResponse.ok 200 minimalBody)
        none none).1 = Except.ok minimalDoc :=
  ⟨rfl, (bypass_frame "dev" (fun _ => HttpResponse.ok 200 minimalBody)
      none (some minimalDoc) none).2.2.1 minimalDoc rfl⟩

/-- C10: the `unwrap` after a successful `AI_PRICING.set` can never panic —
the set succeeded only because the cell was empty at that instant, the cell
is write-once, so the immediate re-read finds the value just stored; over
every input, `get_ai_pricing` never produces the panic outcome. -/
theorem set_then_get_no_panic (env : String) (bust : Bool)
    (net : String → HttpResponse) (cell interf : Option AiPricingJson) :
    (get_ai_pricing env bust net cell interf).1 ≠ Except.error GetError.unwrapPanic := by
  cases bust with
  | true =>
      simp only [get_ai_pricing]
      cases fetch_pricing_json net (pricing_url env) <;> simp
  | false =>
      simp only [get_ai_pricing]
      cases cell with
      | some v => simp
      | none =>
          cases fetch_pricing_json net (pricing_url env) with
          | error e => simp
          | ok d => cases interf <;> simp

/-- C1 (violated by the code): when a non-bypass call's fetch succeeds but a
concurrent winner filled the slot during the await, the source's
`AI_PRICING.set(data).map_err(|_| "Cell was already initialized")?` returns
that error to the caller instead of the winner's committed value: the
internal contention condition leaks to the caller of `get_ai_pricing`.
Evaluated here at a concrete run: slot empty at the check, fetch succeeds
with `minimalDoc`, winner committed `winnerDoc` — the call returns the
contention error, not `Except.ok winnerDoc`. -/
theorem race_loser_gets_error :
    fetch_pricing_json (fun _ => HttpResponse.ok 200 minimalBody) (pricing_url "dev")
        = Except.ok minimalDoc
    ∧ get_ai_pricing "dev" false (fun _ => HttpResponse.ok 200 minimalBody)
        none (some winnerDoc)
        = (Except.error GetError.cellAlreadySet, some winnerDoc) :=
  ⟨rfl, rfl⟩

/-- C9: a `Model` JSON object carrying only `added`, `created` and `type`
decodes successfully, with `pricing = none`, `key = ""`, `features = []` and
every other optional field `none`; and omitting any one of `added`,
`created` or `type` makes the decode fail, so exactly those three fields are
required. -/
theorem model_optional_fields (a c t : String) :
    Model.decode (Json.obj
        [("added", Json.str a), ("created", Json.str c), ("type", Json.str t)])
      = some { added := a, created := c, features := [], key := "",
               model_id := none, inference_profile_arn := none,
               inference_profile_id := none, pricing := none,
               streaming := none, system_disabled := none, model_type := t,
               deprecated := none, encoder := none, prod_price_ids := none }
    ∧ Model.decode (Json.obj [("created", Json.str c), ("type", Json.str t)]) = none
    ∧ Model.decode (Json.obj [("added", Json.str a), ("type", Json.str t)]) = none
    ∧ Model.decode (Json.obj [("added", Json.str a), ("created", Json.str c)]) = none :=
  ⟨rfl, rfl, rfl, rfl⟩

/-- C6: the untagged `Pricing` decoder is structural: whenever the
text-pricing object shape decodes, that result wins; when it fails, the
image-pricing array shape is tried; when both shapes fail the decode fails —
for example an object carrying only three of the four required rate fields
(which is also not an array) is a decode failure. -/
theorem pricing_decode_disambiguation :
    (∀ (j : Json) (t : TextPricing), TextPricing.decode j = some t →
        Pricing.decode j = some (Pricing.TextPricing t))
    ∧ (∀ (j : Json) (l : List ImagePricing), TextPricing.decode j = none →
        decodeImagePricingList j = some l →
        Pricing.decode j = some (Pricing.ImagePricingVec l))
    ∧ (∀ j : Json, TextPricing.decode j = none →
        decodeImagePricingList j = none → Pricing.decode j = none)
    ∧ Pricing.decode (Json.obj
        [("inputPer1K", Json.num 1), ("inputPer1M", Json.num 2),
         ("outputPer1K", Json.num 3)]) = none := by
  refine ⟨fun j t h => ?_, fun j l h1 h2 => ?_, fun j h1 h2 => ?_, rfl⟩
  · simp [Pricing.decode, h]
  · simp [Pricing.decode, h1, h2]
  · simp [Pricing.decode, h1, h2]

/-- C6 witness: the object-shape-first branch of
`pricing_decode_disambiguation` on a concrete text fragment. -/
theorem pricing_decode_disambiguation_witness :
    TextPricing.decode (textFragment none none 1 2 3 4)
        = some { cached_input_per1_k := none, cached_input_per1_m := none,
                 input_per1_k := 1, input_per1_m := 2, output_per1_k := 3,
                 output_per1_m := 4 }
    ∧ Pricing.decode (textFragment none none 1 2 3 4)
        = some (Pricing.TextPricing
            { cached_input_per1_k := none, cached_input_per1_m := none,
              input_per1_k := 1, input_per1_m := 2, output_per1_k := 3,
              output_per1_m := 4 }) :=
  ⟨rfl, pricing_decode_disambiguation.1 _ _ rfl⟩

/-- C7: round-trip of both pricing shapes — a text fragment with the four
required rates (each cached rate optionally present) decodes to the text
variant with every field value preserved; an array of encoded image entries
decodes to the image variant with list order preserved; and decoding the
encoding of any `Pricing` value yields that same value. -/
theorem pricing_roundtrip :
    (∀ (c1 c2 : Option Rat) (i1 i2 u1 u2 : Rat),
        Pricing.decode (textFragment c1 c2 i1 i2 u1 u2)
          = some (Pricing.TextPricing
              { cached_input_per1_k := c1, cached_input_per1_m := c2,
                input_per1_k := i1, input_per1_m := i2,
                output_per1_k := u1, output_per1_m := u2 }))
    ∧ (∀ l : List ImagePricing,
        Pricing.decode (Json.arr (l.map ImagePricing.encode))
          = some (Pricing.ImagePricingVec l))
    ∧ ∀ p : Pricing, Pricing.decode (Pricing.encode p) = some p := by
  refine ⟨fun c1 c2 i1 i2 u1 u2 => ?_, fun l => ?_, fun p => ?_⟩
  · cases c1 <;> cases c2 <;> rfl
  · simp [Pricing.decode, TextPricing.decode, decodeImagePricingList,
      Json.asArr, decodeElems_decode_encode]
  · cases p with
    | TextPricing t =>
        simp [Pricing.encode, Pricing.decode, textPricing_decode_encode]
    | ImagePricingVec l =>
        simp [Pricing.encode, Pricing.decode, TextPricing.decode,
          decodeImagePricingList, Json.asArr, decodeElems_decode_encode]

/-- C8 counterexample: status 300 (Multiple Choices) is not a success (2xx)
status, is not a redirect reqwest's default policy follows (only 301, 302,
303, 307 and 308 are), carries a readable body, and is outside the 400..=599
range `error_for_status` fails on — so a 300 response with a schema-valid
body makes the fetch succeed, contradicting "every non-success HTTP status
is a failure". -/
theorem fetch_ok_on_300 :
    (¬ (200 ≤ 300 ∧ 300 ≤ 299))
    ∧ fetch_pricing_json (fun _ => HttpResponse.ok 300 minimalBody)
        (pricing_url "dev") = Except.ok minimalDoc :=
  ⟨by decide, rfl⟩

/-- C8 (amended): `fetch_pricing_json` consults the network exactly once per
call (its result depends only on the one response for the requested URL, so
there is no internal retry); it fails on every status in the client/server
error range 400..=599 with `HttpStatusError` carrying the status, fails with
`TransportError` on a connection failure, fails with `DecodeError` on a 204
or 304 response (whose body hyper forces empty, and empty bytes are not a
JSON document) and on any other non-error response whose body does not match
the schema; and every one of these errors propagates unchanged, as a
distinguishable kind, to the immediate caller of `get_ai_pricing` on both
fetching paths. -/
theorem fetch_error_taxonomy :
    (∀ (net net2 : String → HttpResponse) (url : String),
        net url = net2 url →
        fetch_pricing_json net url = fetch_pricing_json net2 url)
    ∧ (∀ (net : String → HttpResponse) (url : String),
        net url = HttpResponse.transportFail →
        fetch_pricing_json net url = Except.error FetchError.transport)
    ∧ (∀ (net : String → HttpResponse) (url : String) (s : Nat) (b : Json),
        net url = HttpResponse.ok s b → 400 ≤ s → s ≤ 599 →
        fetch_pricing_json net url = Except.error (FetchError.httpStatus s))
    ∧ (∀ (net : String → HttpResponse) (url : String) (s : Nat) (b : Json),
        net url = HttpResponse.ok s b → ¬ (400 ≤ s ∧ s ≤ 599) →
        (s = 204 ∨ s = 304) →
        fetch_pricing_json net url = Except.error FetchError.decode)
    ∧ (∀ (net : String → HttpResponse) (url : String) (s : Nat) (b : Json),
        net url = HttpResponse.ok s b → ¬ (400 ≤ s ∧ s ≤ 599) →
        ¬ (s = 204 ∨ s = 304) →
        AiPricingJson.decode b = none →
        fetch_pricing_json net url = Except.error FetchError.decode)
    ∧ (∀ (env : String) (net : String → HttpResponse)
        (cell interf : Option AiPricingJson) (e : FetchError),
        fetch_pricing_json net (pricing_url env) = Except.error e →
        (get_ai_pricing env true net cell interf).1 =
            Except.error (GetError.fetch e)
        ∧ (get_ai_pricing env false net none interf).1 =
            Except.error (GetError.fetch e)) := by
  refine ⟨fun net net2 url h => ?_, fun net url h => ?_,
    fun net url s b h hs1 hs2 => ?_, fun net url s b h hs he => ?_,
    fun net url s b h hs hm hd => ?_,
    fun env net cell interf e he => ⟨?_, ?_⟩⟩
  · simp [fetch_pricing_json, h]
  · simp [fetch_pricing_json, h]
  · simp [fetch_pricing_json, h, hs1, hs2]
  · simp [fetch_pricing_json, h, hs, he]
  · simp [fetch_pricing_json, h, hs, hm, hd]
  · simp [get_ai_pricing, he]
  · simp [get_ai_pricing, he]

/-- C8 witness: `fetch_error_taxonomy` applied at a 404 response, at a 304
response carrying a schema-valid body the program can never read (the fetch
fails with a decode error there), and at a transport failure propagated
through the non-bypass path of `get_ai_pricing`. -/
theorem fetch_error_taxonomy_witness :
    ((fun _ => HttpResponse.ok 404 Json.null) : String → HttpResponse) "u"
        = HttpResponse.ok 404 Json.null
    ∧ fetch_pricing_json (fun _ => HttpResponse.ok 404 Json.null) "u"
        = Except.error (FetchError.httpStatus 404)
    ∧ fetch_pricing_json (fun _ => HttpResponse.ok 304 minimalBody) "u"
        = Except.error FetchError.decode
    ∧ (get_ai_pricing "dev" false (fun _ => HttpResponse.transportFail)
        none none).1 = Except.error (GetError.fetch FetchError.transport) :=
  ⟨rfl,
   fetch_error_taxonomy.2.2.1 (fun _ => HttpResponse.ok 404 Json.null) "u"
     404 Json.null rfl (by decide) (by decide),
   fetch_error_taxonomy.2.2.2.1 (fun _ => HttpResponse.ok 304 minimalBody)
     "u" 304 minimalBody rfl (by decide) (by decide),
   (fetch_error_taxonomy.2.2.2.2.2 "dev" (fun _ => HttpResponse.transportFail)
     none none FetchError.transport rfl).2⟩

end AiPricing
